import Mathlib

/-!
Verification of the product-matching relevance engine and the asynchronous
task lifecycle of the wyoiwyget ai-services backend, embedded shallowly from
`app/services/product_matching_service.py`, `app/services/avatar_service.py`
and `app/services/virtual_tryon_service.py`.

Numeric values are modelled as exact rationals; optional / falsy Python
values (`None`, the empty string, the number `0`) are modelled with `Option`
together with explicit truthiness tests mirroring the Python conditions.
External collaborators (platform adapters, the HTTP fetchers behind the
extractors, the database, blob storage) are modelled as oracle functions
supplied in an environment record; a call that may raise is an
`Except String` value.
-/

namespace Wyoiwyget

/-! ## Similarity scorer (`_calculate_text_similarity`) -/

/-- Split a character list on runs of whitespace, dropping empty pieces:
the behaviour of the no-argument Python `str.split`. The second argument
accumulates the current (reversed) word. -/
def splitWordsAux : List Char → List Char → List (List Char)
  | [], [] => []
  | [], cur => [cur.reverse]
  | c :: rest, cur =>
    if c.isWhitespace then
      (if cur.isEmpty then splitWordsAux rest [] else cur.reverse :: splitWordsAux rest [])
    else splitWordsAux rest (c :: cur)

/-- `text.lower().split()` from the Python source: lower-case, then split on
whitespace into words. -/
def wordsOf (s : String) : List String :=
  (splitWordsAux (s.toList.map Char.toLower) []).map (fun cs => String.mk cs)

/-- The set of lower-cased words of a string (`set(text.lower().split())`). -/
def wordSet (s : String) : Finset String := (wordsOf s).toFinset

/-- `ProductMatchingService._calculate_text_similarity`: Jaccard coefficient
of the two word sets; `0` when either word set is empty. -/
def textSimilarity (text1 text2 : String) : ℚ :=
  let words1 := wordSet text1
  let words2 := wordSet text2
  if words1 = ∅ ∨ words2 = ∅ then 0
  else
    let inter := (words1 ∩ words2).card
    let uni := (words1 ∪ words2).card
    if 0 < uni then (inter : ℚ) / (uni : ℚ) else 0

/-! ## Product records and the relevance score -/

/-- A normalized product record as produced by the extractors: the fields the
scorer reads. `none` models a missing key (Python `dict.get` returning
`None`); `some ""` and `some 0` model present-but-falsy values. -/
structure ProductRecord where
  platform : String := ""
  product_id : String := ""
  name : String := ""
  description : Option String := none
  price : Option ℚ := none
  category : Option String := none
  brand : Option String := none
  url : String := ""
deriving Repr, DecidableEq

/-- `ProductMatchingService._calculate_relevance_score`: weighted sum of
name (0.4), brand (0.2), category (0.15), price (0.15) and description (0.1)
similarities, each optional term guarded by Python truthiness of both
attributes, clamped above by `min 1`. -/
def relevanceScore (src tgt : ProductRecord) : ℚ :=
  let nameScore := textSimilarity src.name tgt.name * 0.4
  let brandScore :=
    match src.brand, tgt.brand with
    | some b1, some b2 => if b1 ≠ "" ∧ b2 ≠ "" then textSimilarity b1 b2 * 0.2 else 0
    | _, _ => 0
  let categoryScore :=
    match src.category, tgt.category with
    | some c1, some c2 => if c1 ≠ "" ∧ c2 ≠ "" then textSimilarity c1 c2 * 0.15 else 0
    | _, _ => 0
  let priceScore :=
    match src.price, tgt.price with
    | some p1, some p2 => if p1 ≠ 0 ∧ p2 ≠ 0 then max 0 (1 - |p1 - p2| / p1) * 0.15 else 0
    | _, _ => 0
  let descScore :=
    match src.description, tgt.description with
    | some d1, some d2 => if d1 ≠ "" ∧ d2 ≠ "" then textSimilarity d1 d2 * 0.1 else 0
    | _, _ => 0
  min 1 (nameScore + brandScore + categoryScore + priceScore + descScore)

/-! ## Match orchestrator (`find_matches`, `compare_prices`) -/

/-- Matching criteria: an opaque key/value filter (Python `Optional[Dict]`). -/
abbrev Criteria := Option (List (String × String))

/-- A price record returned by an adapter price lookup; `price` may be the
Python `None`. -/
structure PriceInfo where
  price : Option ℚ
  currency : String := "USD"
  availability : String := ""
deriving Repr, DecidableEq

/-- A platform adapter: `search_products` and `get_product_price` are calls
to an external service and may raise, modelled by `Except`. -/
structure Adapter where
  search_products : String → String → String → Criteria → Except String (List ProductRecord)
  get_product_price : String → Except String (Option PriceInfo)

/-- Lookup in an insertion-ordered association list (a Python dict). -/
def lookupA {α : Type} : List (String × α) → String → Option α
  | [], _ => none
  | (k2, v) :: rest, k => if k2 = k then some v else lookupA rest k

/-- Insertion into an insertion-ordered association list: replace in place
when the key is present, append otherwise (Python dict assignment). -/
def insertA {α : Type} : List (String × α) → String → α → List (String × α)
  | [], k, v => [(k, v)]
  | (k2, v2) :: rest, k, v =>
    if k2 = k then (k2, v) :: rest else (k2, v2) :: insertA rest k v

/-- A match candidate: a raw search result together with its relevance score
and the originating platform tag (the dict spread in
`_find_platform_matches`). -/
structure MatchCandidate where
  product : ProductRecord
  relevance_score : ℚ
  platform : String
deriving Repr, DecidableEq

/-- The aggregate stored by `find_matches` (model of `MatchResult`). -/
structure MatchResult where
  id : String
  source_url : String
  source_product : ProductRecord
  «matches» : List MatchCandidate
  target_platforms : List String
  criteria : Criteria
deriving Repr, DecidableEq

/-- The environment of external collaborators of the matching service:
the adapter registry, the product extractor (`_extract_product_info`, which
catches every error and yields `none`), the generated uuid, the database
save (which may raise) and the product lookup. -/
structure MatchEnv where
  adapters : List (String × Adapter)
  extract : String → Option ProductRecord
  freshId : String
  save : MatchResult → Except String Unit
  getProduct : String → Option ProductRecord

/-- The mutable state of the service: the in-memory `matching_cache` and the
log of match results persisted to the database. -/
structure ServiceState where
  matching_cache : List (String × MatchResult) := []
  saved : List MatchResult := []
deriving Repr, DecidableEq

/-- `ProductMatchingService._find_platform_matches`: search one platform,
score each hit, keep the hits scoring strictly above the 0.3 threshold.
A missing adapter or a raising search contributes the empty list. -/
def findPlatformMatches (env : MatchEnv) (src : ProductRecord) (platform : String)
    (criteria : Criteria) : List MatchCandidate :=
  match lookupA env.adapters platform with
  | none => []
  | some adapter =>
    match adapter.search_products src.name (src.brand.getD "") (src.category.getD "") criteria with
    | .error _ => []
    | .ok results =>
      results.filterMap (fun r =>
        let score := relevanceScore src r
        if score > 0.3 then
          some { product := r, relevance_score := score, platform := platform }
        else none)

/-- The platform loop of `find_matches`: per-platform candidates appended in
the iteration order of the target platforms; unknown platform ids are
silently skipped. -/
def collectMatches (env : MatchEnv) (src : ProductRecord) (target_platforms : List String)
    (criteria : Criteria) : List MatchCandidate :=
  target_platforms.foldl (fun acc platform =>
    if (lookupA env.adapters platform).isSome then
      acc ++ findPlatformMatches env src platform criteria
    else acc) []

/-- `matches.sort(key=relevance_score, reverse=True)`: a stable descending
sort by relevance score. -/
def sortByRelevance (ms : List MatchCandidate) : List MatchCandidate :=
  ms.mergeSort (fun a b => decide (b.relevance_score ≤ a.relevance_score))

/-- `ProductMatchingService.find_matches`: extract the source product (raising
when extraction yields nothing), collect and rank candidates, cache the
result, save it to the database (whose failure propagates after the cache
write), and return the ranked list. The returned state records the cache and
the persistence log after the call. -/
def find_matches (env : MatchEnv) (st : ServiceState) (source_url : String)
    (target_platforms : List String) (criteria : Criteria) :
    Except String (List MatchCandidate) × ServiceState :=
  match env.extract source_url with
  | none => (.error "Could not extract product information from source URL", st)
  | some src =>
    let ms := sortByRelevance (collectMatches env src target_platforms criteria)
    let result : MatchResult :=
      { id := env.freshId, source_url := source_url, source_product := src,
        «matches» := ms, target_platforms := target_platforms, criteria := criteria }
    let st1 : ServiceState :=
      { st with matching_cache := insertA st.matching_cache env.freshId result }
    match env.save result with
    | .error e => (.error e, st1)
    | .ok _ => (.ok ms, { st1 with saved := st1.saved ++ [result] })

/-- The statistics block returned by `compare_prices`. -/
structure PriceStats where
  min_price : ℚ
  max_price : ℚ
  avg_price : ℚ
  price_range : ℚ
  best_deals : List String
deriving Repr, DecidableEq

/-- Python `round` to an integer: round half to even. -/
def roundHalfEven (q : ℚ) : ℤ :=
  let f := ⌊q⌋
  if q - f < 1/2 then f
  else if q - f > 1/2 then f + 1
  else if Even f then f else f + 1

/-- `round(x, 2)`: round to two decimal places, ties to even. -/
def roundTo2 (q : ℚ) : ℚ := (roundHalfEven (q * 100) : ℚ) / 100

/-- `ProductMatchingService._get_platform_price`: a missing adapter or a
raising price lookup yields `none`. -/
def getPlatformPrice (env : MatchEnv) (product : ProductRecord) (platform : String) :
    Option PriceInfo :=
  match lookupA env.adapters platform with
  | none => none
  | some adapter =>
    match adapter.get_product_price product.product_id with
    | .error _ => none
    | .ok info => info

/-- The platform loop of `compare_prices` building the `price_comparison`
dict: only platforms with a registered adapter and a truthy price record
are recorded. -/
def buildPriceComparison (env : MatchEnv) (product : ProductRecord)
    (target_platforms : List String) : List (String × PriceInfo) :=
  target_platforms.foldl (fun acc platform =>
    if (lookupA env.adapters platform).isSome then
      match getPlatformPrice env product platform with
      | some info => insertA acc platform info
      | none => acc
    else acc) []

/-- The price values used for the statistics: records whose `price` field is
truthy, i.e. neither `None` nor `0`. -/
def truthyPrices (comparison : List (String × PriceInfo)) : List ℚ :=
  comparison.filterMap (fun e =>
    match e.2.price with
    | some q => if q ≠ 0 then some q else none
    | none => none)

/-- The statistics block of `compare_prices`: min, max, rounded average and
range over the truthy prices; `best_deals` collects every platform whose
price equals the minimum. All-zero defaults when no truthy price exists. -/
def priceStats (comparison : List (String × PriceInfo)) : PriceStats :=
  match truthyPrices comparison with
  | [] =>
    { min_price := 0, max_price := 0, avg_price := roundTo2 0, price_range := 0,
      best_deals := [] }
  | p :: ps =>
    let minP := ps.foldl min p
    let maxP := ps.foldl max p
    let avgP := (p :: ps).sum / ((p :: ps).length : ℚ)
    let deals := (comparison.filter (fun e =>
      match e.2.price with
      | some q => decide (q = minP)
      | none => false)).map Prod.fst
    { min_price := minP, max_price := maxP, avg_price := roundTo2 avgP,
      price_range := maxP - minP, best_deals := deals }

/-- The value returned by `compare_prices` (timestamp omitted). -/
structure PriceComparisonResult where
  product : ProductRecord
  price_comparison : List (String × PriceInfo)
  statistics : PriceStats
deriving Repr, DecidableEq

/-- `ProductMatchingService.compare_prices`: look the product up (raising when
absent), query every requested platform with a registered adapter — a falsy
`platforms` argument meaning all registered platforms — and compute the
statistics over the truthy prices. -/
def compare_prices (env : MatchEnv) (product_id : String)
    (platforms : Option (List String)) : Except String PriceComparisonResult :=
  match env.getProduct product_id with
  | none => .error "Product not found"
  | some product =>
    let target_platforms :=
      match platforms with
      | some ps => if ps.isEmpty then env.adapters.map Prod.fst else ps
      | none => env.adapters.map Prod.fst
    let comparison := buildPriceComparison env product target_platforms
    .ok { product := product, price_comparison := comparison,
          statistics := priceStats comparison }

/-! ## Task lifecycle (avatar service) -/

/-- Task status values used by the services. -/
inductive TaskStatus
  | processing
  | completed
  | failed
deriving Repr, DecidableEq

/-- Body measurements with the defaults applied by
`_create_base_avatar_prompt` (`dict.get` with a default). -/
structure BodyMeasurements where
  height : ℚ := 170
  weight : ℚ := 70
  body_type : String := "average"
  gender : String := "other"
deriving Repr, DecidableEq

/-- Avatar preferences with the defaults applied by
`_create_base_avatar_prompt`. -/
structure AvatarPreferences where
  style : String := "casual"
  hairStyle : String := "natural"
  skinTone : String := "medium"
  eyeColor : String := "brown"
  hairColor : String := "brown"
deriving Repr, DecidableEq

/-- The result payload attached to a completed avatar task. -/
structure AvatarResult where
  avatar_url : String
  preferences : AvatarPreferences
  body_measurements : BodyMeasurements
deriving Repr, DecidableEq

/-- One entry of `active_tasks`: the mutable task record. -/
structure AvatarTask where
  user_id : String
  status : TaskStatus
  progress : Nat
  message : String
  result : Option AvatarResult
  error : Option String
  created_at : Nat
deriving Repr, DecidableEq

/-- The snapshot returned by `AvatarService.get_status`. -/
structure StatusSnapshot where
  task_id : String
  status : TaskStatus
  progress : Nat
  message : String
  created_at : Nat
  result : Option AvatarResult
  error : Option String
deriving Repr, DecidableEq

/-- `AvatarService.get_status`: raises when the task id is unknown, raises
when the requesting user is not the owner, and otherwise returns the
snapshot of the task. -/
def get_status (tasks : List (String × AvatarTask)) (task_id user_id : String) :
    Except String StatusSnapshot :=
  match lookupA tasks task_id with
  | none => .error "Task not found"
  | some task =>
    if task.user_id ≠ user_id then .error "Not authorized to access this task"
    else
      .ok { task_id := task_id, status := task.status, progress := task.progress,
            message := task.message, created_at := task.created_at,
            result := task.result, error := task.error }

/-- The request data captured in the task record by `start_generation`. -/
structure GenerationRequest where
  id : String
  user_id : String
  body_measurements : BodyMeasurements
  face_image_url : Option String
  body_image_url : Option String
  preferences : AvatarPreferences
deriving Repr, DecidableEq

/-- The task record created by `AvatarService.start_generation`: status
`processing`, progress 0, no message, no result, no error. -/
def startGeneration (req : GenerationRequest) (now : Nat) : AvatarTask :=
  { user_id := req.user_id, status := .processing, progress := 0, message := "",
    result := none, error := none, created_at := now }

/-- The BMI body-description branches of `_create_base_avatar_prompt`. -/
def bodyDescription (bmi : ℚ) : String :=
  if bmi < 18.5 then "slim and slender"
  else if bmi < 25 then "average and well-proportioned"
  else if bmi < 30 then "athletic and toned"
  else "full-figured and curvy"

/-- `AvatarService._create_base_avatar_prompt`: computes the BMI — raising a
ZeroDivisionError when the height is 0 — and builds the DALL-E prompt. -/
def createBaseAvatarPrompt (m : BodyMeasurements) (p : AvatarPreferences) :
    Except String String :=
  if m.height = 0 then .error "division by zero"
  else
    let heightM := m.height / 100
    let bmi := m.weight / (heightM * heightM)
    .ok ("Create a realistic, full-body portrait of a " ++ m.gender ++
      " person. Body: " ++ bodyDescription bmi ++ ", " ++ toString m.height ++
      "cm tall, " ++ toString m.weight ++ "kg. Style: " ++ p.style ++
      " clothing. Hair: " ++ p.hairStyle ++ " " ++ p.hairColor ++
      " hair. Eyes: " ++ p.eyeColor ++ " eyes. Skin: " ++ p.skinTone ++ " skin tone.")

/-- Opaque image bytes. -/
abbrev Bytes := List Nat

/-- The external collaborators of the avatar workflow: DALL-E generation,
HTTP downloads and the blob-storage upload, each of which may raise. -/
structure GenEnv where
  genImage : String → Except String Bytes
  download : String → Except String Bytes
  upload : Bytes → String → Except String String

/-- `AvatarService._apply_face_features`: downloads the face image but — the
merge being unimplemented — always returns the base image; every error is
caught and the base image returned. -/
def applyFaceFeatures (env : GenEnv) (base : Bytes) (faceUrl : String) : Bytes :=
  match env.download faceUrl with
  | .error _ => base
  | .ok _ => base

/-- `AvatarService._apply_body_features`: same catch-all shape as the face
step; always returns the incoming avatar image. -/
def applyBodyFeatures (env : GenEnv) (avatar : Bytes) (bodyUrl : String)
    (_m : BodyMeasurements) : Bytes :=
  match env.download bodyUrl with
  | .error _ => avatar
  | .ok _ => avatar

/-- One mutation of the task record performed by the background workflow:
a `_update_task_progress` call, the completion write, or the failure write
of the except-branch. -/
inductive TaskUpdate
  | setProgress (progress : Nat) (message : String)
  | complete (result : AvatarResult)
  | fail (error : String)
deriving Repr, DecidableEq

/-- The sequence of task mutations performed by one execution of
`AvatarService._generate_avatar`: progress updates at 20, 40, optionally 60
and 80, then 90 and 100, ending in the completion write; when the prompt
step, the image generation or the upload raises, the except-branch writes
the failure instead. -/
def generateAvatarSteps (env : GenEnv) (req : GenerationRequest) : List TaskUpdate :=
  let u1 := [TaskUpdate.setProgress 20 "Analyzing body measurements..."]
  match createBaseAvatarPrompt req.body_measurements req.preferences with
  | .error e => u1 ++ [.fail e]
  | .ok prompt =>
    let u2 := u1 ++ [.setProgress 40 "Generating base avatar..."]
    match env.genImage prompt with
    | .error e => u2 ++ [.fail e]
    | .ok baseImage =>
      let s3 : List TaskUpdate × Bytes :=
        match req.face_image_url with
        | some faceUrl =>
          (u2 ++ [.setProgress 60 "Applying face features..."],
           applyFaceFeatures env baseImage faceUrl)
        | none => (u2, baseImage)
      let s4 : List TaskUpdate × Bytes :=
        match req.body_image_url with
        | some bodyUrl =>
          (s3.1 ++ [.setProgress 80 "Applying body features..."],
           applyBodyFeatures env s3.2 bodyUrl req.body_measurements)
        | none => s3
      let u5 := s4.1 ++ [.setProgress 90 "Saving avatar..."]
      match env.upload s4.2 req.id with
      | .error e => u5 ++ [.fail e]
      | .ok url =>
        u5 ++ [.setProgress 100 "Avatar generation complete!"] ++
          [.complete { avatar_url := url, preferences := req.preferences,
                       body_measurements := req.body_measurements }]

/-- Apply one mutation to the task record: `_update_task_progress` sets
progress and message; completion sets status and result; failure sets status
and error. -/
def applyUpdate (t : AvatarTask) : TaskUpdate → AvatarTask
  | .setProgress p m => { t with progress := p, message := m }
  | .complete r => { t with status := .completed, result := some r }
  | .fail e => { t with status := .failed, error := some e }

/-- The sequence of task states observable along one execution of the
background workflow, starting from the record written by
`start_generation`. -/
def taskStates (env : GenEnv) (req : GenerationRequest) (now : Nat) : List AvatarTask :=
  List.scanl applyUpdate (startGeneration req now) (generateAvatarSteps env req)

/-! ## Concrete fixtures used by witnesses and counterexamples -/

/-- The Red Shoe product of the spec example: name, brand and price set,
category and description absent. -/
def redShoe : ProductRecord :=
  { name := "Red Shoe", brand := some "Acme", price := some 50 }

/-- An adapter whose search returns the single Red Shoe record. -/
def okAdapter : Adapter :=
  { search_products := fun _ _ _ _ => .ok [redShoe],
    get_product_price := fun _ => .ok none }

/-- An adapter whose calls all raise. -/
def failingAdapter : Adapter :=
  { search_products := fun _ _ _ _ => .error "network down",
    get_product_price := fun _ => .error "network down" }

/-- Environment with one healthy adapter and a working extractor. -/
def envRedShoe : MatchEnv :=
  { adapters := [("amazon", okAdapter)],
    extract := fun _ => some redShoe,
    freshId := "match-1",
    save := fun _ => .ok (),
    getProduct := fun _ => none }

/-- Environment where the amazon adapter raises and the ebay adapter returns
one valid hit. -/
def envPartialFailure : MatchEnv :=
  { adapters := [("amazon", failingAdapter), ("ebay", okAdapter)],
    extract := fun _ => some redShoe,
    freshId := "match-2",
    save := fun _ => .ok (),
    getProduct := fun _ => none }

/-- Environment whose extractor can extract nothing. -/
def envNoExtract : MatchEnv :=
  { adapters := [("amazon", okAdapter)],
    extract := fun _ => none,
    freshId := "match-3",
    save := fun _ => .ok (),
    getProduct := fun _ => none }

/-- A minimal stored product for the price-comparison fixtures. -/
def prodX : ProductRecord := { product_id := "p1", name := "X" }

/-- An adapter returning a fixed price record. -/
def priceAdapter (p : Option ℚ) : Adapter :=
  { search_products := fun _ _ _ _ => .ok [],
    get_product_price := fun _ => .ok (some { price := p }) }

/-- The price environment of the spec example: A at 20, B at 15, C with a
null price. -/
def envPricesABC : MatchEnv :=
  { adapters := [("A", priceAdapter (some 20)), ("B", priceAdapter (some 15)),
                 ("C", priceAdapter none)],
    extract := fun _ => none, freshId := "", save := fun _ => .ok (),
    getProduct := fun _ => some prodX }

/-- A price environment whose mean price 4/3 has no exact two-decimal
representation. -/
def envPricesThird : MatchEnv :=
  { adapters := [("A", priceAdapter (some 1)), ("B", priceAdapter (some 1)),
                 ("C", priceAdapter (some 2))],
    extract := fun _ => none, freshId := "", save := fun _ => .ok (),
    getProduct := fun _ => some prodX }

/-- A price environment where platform Z reports the price 0. -/
def envPriceZero : MatchEnv :=
  { adapters := [("A", priceAdapter (some 20)), ("Z", priceAdapter (some 0))],
    extract := fun _ => none, freshId := "", save := fun _ => .ok (),
    getProduct := fun _ => some prodX }

/-- The comparison dict built in `envPricesABC` for platforms A, B, C. -/
def comparisonABC : List (String × PriceInfo) :=
  [("A", { price := some 20 }), ("B", { price := some 15 }), ("C", { price := none })]

/-- The comparison dict built in `envPricesThird` for platforms A, B, C. -/
def comparisonThird : List (String × PriceInfo) :=
  [("A", { price := some 1 }), ("B", { price := some 1 }), ("C", { price := some 2 })]

/-- The comparison dict built in `envPriceZero` for platforms A, Z. -/
def comparisonAZ : List (String × PriceInfo) :=
  [("A", { price := some 20 }), ("Z", { price := some 0 })]

/-- A task owned by alice, as written by `start_generation`. -/
def taskAlice : AvatarTask :=
  { user_id := "alice", status := .processing, progress := 0, message := "",
    result := none, error := none, created_at := 0 }

/-- A task map holding the single task t1 of alice. -/
def tasksFixture : List (String × AvatarTask) := [("t1", taskAlice)]

/-! ### Basic facts about the scorer -/

theorem textSimilarity_nonneg (a b : String) : 0 ≤ textSimilarity a b := by
  unfold textSimilarity
  simp only []
  split
  · exact le_refl 0
  · split
    · exact div_nonneg (Nat.cast_nonneg _) (Nat.cast_nonneg _)
    · exact le_refl 0

theorem textSimilarity_self_of_ne (s : String) (h : wordSet s ≠ ∅) :
    textSimilarity s s = 1 := by
  have hne : (wordSet s).Nonempty := Finset.nonempty_iff_ne_empty.mpr h
  have hcard : 0 < (wordSet s).card := Finset.card_pos.mpr hne
  unfold textSimilarity
  rw [if_neg (by simp [h]), Finset.inter_self, Finset.union_self, if_pos hcard]
  exact div_self (by exact_mod_cast Nat.pos_iff_ne_zero.mp hcard)

theorem relevanceScore_redShoe : relevanceScore redShoe redShoe = 0.75 := by
  have hname : textSimilarity "Red Shoe" "Red Shoe" = 1 :=
    textSimilarity_self_of_ne _ (by decide)
  have hbrand : textSimilarity "Acme" "Acme" = 1 :=
    textSimilarity_self_of_ne _ (by decide)
  simp only [relevanceScore, redShoe]
  rw [hname, hbrand]
  rw [if_pos (by refine ⟨by decide, by decide⟩)]
  rw [if_pos (by norm_num)]
  norm_num

/-- C2: with identical name Red Shoe, brand Acme and price 50 on source and
candidate, and category and description absent on both, the relevance score
is exactly 0.75 = 0.40 + 0.20 + 0.15, which is above the 0.3 threshold, so
the candidate is kept in the platform match list. -/
theorem c2_red_shoe_identical_candidate :
    relevanceScore redShoe redShoe = 0.75 ∧ (0.3 : ℚ) < 0.75 ∧
    findPlatformMatches envRedShoe redShoe "amazon" none =
      [{ product := redShoe, relevance_score := 0.75, platform := "amazon" }] := by
  refine ⟨relevanceScore_redShoe, by norm_num, ?_⟩
  simp only [findPlatformMatches, envRedShoe, lookupA, okAdapter, if_true,
    List.filterMap_cons, List.filterMap_nil, relevanceScore_redShoe]
  norm_num

/-- C4: for every pair of product records the relevance score lies in the
closed interval from 0 to 1. -/
theorem c4_relevance_score_in_unit_interval (src tgt : ProductRecord) :
    0 ≤ relevanceScore src tgt ∧ relevanceScore src tgt ≤ 1 := by
  constructor
  · unfold relevanceScore
    simp only []
    refine le_min (by norm_num) ?_
    refine add_nonneg (add_nonneg (add_nonneg (add_nonneg ?_ ?_) ?_) ?_) ?_
    · exact mul_nonneg (textSimilarity_nonneg _ _) (by norm_num)
    · rcases src.brand with _ | b1 <;> rcases tgt.brand with _ | b2 <;> simp only
      · exact le_refl 0
      · exact le_refl 0
      · exact le_refl 0
      · split
        · exact mul_nonneg (textSimilarity_nonneg _ _) (by norm_num)
        · exact le_refl 0
    · rcases src.category with _ | c1 <;> rcases tgt.category with _ | c2 <;> simp only
      · exact le_refl 0
      · exact le_refl 0
      · exact le_refl 0
      · split
        · exact mul_nonneg (textSimilarity_nonneg _ _) (by norm_num)
        · exact le_refl 0
    · rcases src.price with _ | p1 <;> rcases tgt.price with _ | p2 <;> simp only
      · exact le_refl 0
      · exact le_refl 0
      · exact le_refl 0
      · split
        · exact mul_nonneg (le_max_left 0 _) (by norm_num)
        · exact le_refl 0
    · rcases src.description with _ | d1 <;> rcases tgt.description with _ | d2 <;> simp only
      · exact le_refl 0
      · exact le_refl 0
      · exact le_refl 0
      · split
        · exact mul_nonneg (textSimilarity_nonneg _ _) (by norm_num)
        · exact le_refl 0
  · unfold relevanceScore
    simp only []
    exact min_le_left _ _

/-- C6: when no product record can be extracted from the source URL,
find_matches raises the extraction error and leaves the service state — the
match cache and the persistence log — unchanged. -/
theorem c6_extraction_failure_no_persistence (env : MatchEnv) (st : ServiceState)
    (source_url : String) (target_platforms : List String) (criteria : Criteria)
    (h : env.extract source_url = none) :
    find_matches env st source_url target_platforms criteria =
      (.error "Could not extract product information from source URL", st) := by
  unfold find_matches
  rw [h]

/-- Witness for C6 in the environment whose extractor extracts nothing. -/
theorem c6_extraction_failure_no_persistence_witness :
    find_matches envNoExtract {} "https://example.com/item" ["amazon"] none =
      (.error "Could not extract product information from source URL",
       ({} : ServiceState)) :=
  c6_extraction_failure_no_persistence envNoExtract {} _ _ _ rfl

theorem find_matches_fst_ok (env : MatchEnv) (st : ServiceState) (url : String)
    (tps : List String) (criteria : Criteria) (src : ProductRecord)
    (hex : env.extract url = some src) (hsave : ∀ res, env.save res = .ok ()) :
    (find_matches env st url tps criteria).1 =
      .ok (sortByRelevance (collectMatches env src tps criteria)) := by
  unfold find_matches
  rw [hex]
  simp only []
  rw [hsave]

theorem collectMatches_redShoe :
    collectMatches envRedShoe redShoe ["amazon"] none =
      [{ product := redShoe, relevance_score := 0.75, platform := "amazon" }] := by
  unfold collectMatches findPlatformMatches
  simp only [List.foldl_cons, List.foldl_nil, envRedShoe, lookupA, okAdapter, if_true,
    Option.isSome_some, List.filterMap_cons, List.filterMap_nil, relevanceScore_redShoe]
  norm_num

theorem findPlatformMatches_platform (env : MatchEnv) (src : ProductRecord) (p : String)
    (criteria : Criteria) :
    ∀ c ∈ findPlatformMatches env src p criteria, c.platform = p := by
  intro c hc
  unfold findPlatformMatches at hc
  split at hc
  · cases hc
  · split at hc
    · cases hc
    · rcases List.mem_filterMap.mp hc with ⟨r, hr, hfr⟩
      simp only [] at hfr
      split at hfr
      · cases hfr
        rfl
      · cases hfr

theorem collectMatches_acc_mono (env : MatchEnv) (src : ProductRecord)
    (criteria : Criteria) :
    ∀ (targets : List String) (acc : List MatchCandidate) (c : MatchCandidate), c ∈ acc →
      c ∈ targets.foldl (fun acc platform =>
        if (lookupA env.adapters platform).isSome then
          acc ++ findPlatformMatches env src platform criteria
        else acc) acc := by
  intro targets
  induction targets with
  | nil =>
    intro acc c hc
    exact hc
  | cons t rest ih =>
    intro acc c hc
    rw [List.foldl_cons]
    refine ih _ c ?_
    by_cases hl : (lookupA env.adapters t).isSome
    · rw [if_pos hl]
      exact List.mem_append_left _ hc
    · rw [if_neg hl]
      exact hc

theorem collectMatches_mem_of_platform (env : MatchEnv) (src : ProductRecord)
    (criteria : Criteria) :
    ∀ (targets : List String) (acc : List MatchCandidate) (p : String)
      (c : MatchCandidate), p ∈ targets → (lookupA env.adapters p).isSome →
      c ∈ findPlatformMatches env src p criteria →
      c ∈ targets.foldl (fun acc platform =>
        if (lookupA env.adapters platform).isSome then
          acc ++ findPlatformMatches env src platform criteria
        else acc) acc := by
  intro targets
  induction targets with
  | nil =>
    intro acc p c hp
    cases hp
  | cons t rest ih =>
    intro acc p c hp hsome hc
    rw [List.foldl_cons]
    rcases List.mem_cons.mp hp with hpe | hp2
    · refine collectMatches_acc_mono env src criteria rest _ c ?_
      rw [← hpe] at *
      rw [if_pos hsome]
      exact List.mem_append_right _ hc
    · exact ih _ p c hp2 hsome hc

theorem collectMatches_origin (env : MatchEnv) (src : ProductRecord)
    (criteria : Criteria) :
    ∀ (targets : List String) (acc : List MatchCandidate) (c : MatchCandidate),
      c ∈ targets.foldl (fun acc platform =>
        if (lookupA env.adapters platform).isSome then
          acc ++ findPlatformMatches env src platform criteria
        else acc) acc →
      c ∈ acc ∨ ∃ p, p ∈ targets ∧ c ∈ findPlatformMatches env src p criteria := by
  intro targets
  induction targets with
  | nil =>
    intro acc c hc
    exact Or.inl hc
  | cons t rest ih =>
    intro acc c hc
    rw [List.foldl_cons] at hc
    rcases ih _ c hc with h1 | ⟨p, hp, hcp⟩
    · by_cases hl : (lookupA env.adapters t).isSome
      · rw [if_pos hl] at h1
        rcases List.mem_append.mp h1 with h2 | h2
        · exact Or.inl h2
        · exact Or.inr ⟨t, List.mem_cons_self _ _, h2⟩
      · rw [if_neg hl] at h1
        exact Or.inl h1
    · exact Or.inr ⟨p, List.mem_cons_of_mem _ hp, hcp⟩

/-- C1: for any source product, any list of target platforms and any adapter
registry where the search of one adapter raises and the search of another —
targeted — adapter returns a record scoring above the relevance threshold,
find_matches does not raise: it returns the ranked candidates, the valid
match from the healthy platform is present, and the failing platform
contributes zero candidates. -/
theorem c1_partial_failure_tolerance (env : MatchEnv) (st : ServiceState)
    (source_url p1 p2 e : String) (a1 a2 : Adapter) (src r : ProductRecord)
    (criteria : Criteria) (targets : List String)
    (hex : env.extract source_url = some src)
    (h1 : lookupA env.adapters p1 = some a1)
    (hfail : a1.search_products src.name (src.brand.getD "") (src.category.getD "")
      criteria = .error e)
    (h2 : lookupA env.adapters p2 = some a2)
    (hok : a2.search_products src.name (src.brand.getD "") (src.category.getD "")
      criteria = .ok [r])
    (hscore : relevanceScore src r > 0.3)
    (hsave : ∀ res, env.save res = .ok ())
    (hmem : p2 ∈ targets) :
    (find_matches env st source_url targets criteria).1 =
      .ok (sortByRelevance (collectMatches env src targets criteria)) ∧
    { product := r, relevance_score := relevanceScore src r, platform := p2 } ∈
      sortByRelevance (collectMatches env src targets criteria) ∧
    ∀ c ∈ sortByRelevance (collectMatches env src targets criteria),
      c.platform ≠ p1 := by
  have hfp1 : findPlatformMatches env src p1 criteria = [] := by
    unfold findPlatformMatches
    simp only [h1, hfail]
  have hfp2 : findPlatformMatches env src p2 criteria =
      [{ product := r, relevance_score := relevanceScore src r, platform := p2 }] := by
    unfold findPlatformMatches
    simp only [h2, hok, List.filterMap_cons, List.filterMap_nil]
    rw [if_pos hscore]
  have hperm := List.mergeSort_perm (collectMatches env src targets criteria)
      (fun a b => decide (b.relevance_score ≤ a.relevance_score))
  refine ⟨find_matches_fst_ok env st source_url targets criteria src hex hsave, ?_, ?_⟩
  · unfold sortByRelevance
    refine hperm.mem_iff.mpr ?_
    unfold collectMatches
    refine collectMatches_mem_of_platform env src criteria targets [] p2 _ hmem ?_ ?_
    · rw [h2]
      rfl
    · rw [hfp2]
      exact List.mem_cons_self _ _
  · intro c hc
    unfold sortByRelevance at hc
    have hcol := hperm.mem_iff.mp hc
    unfold collectMatches at hcol
    rcases collectMatches_origin env src criteria targets [] c hcol with h0 | ⟨p, hp, hcp⟩
    · cases h0
    · by_cases hpp : p = p1
      · rw [hpp, hfp1] at hcp
        cases hcp
      · have hcp2 := findPlatformMatches_platform env src p criteria c hcp
        rw [hcp2]
        exact hpp

theorem collectMatches_partialFailure :
    collectMatches envPartialFailure redShoe ["amazon", "ebay"] none =
      [{ product := redShoe, relevance_score := 0.75, platform := "ebay" }] := by
  have h1 : lookupA envPartialFailure.adapters "amazon" = some failingAdapter := rfl
  have h2 : lookupA envPartialFailure.adapters "ebay" = some okAdapter := rfl
  have hs1 : failingAdapter.search_products redShoe.name (redShoe.brand.getD "")
      (redShoe.category.getD "") none = .error "network down" := rfl
  have hs2 : okAdapter.search_products redShoe.name (redShoe.brand.getD "")
      (redShoe.category.getD "") none = .ok [redShoe] := rfl
  unfold collectMatches findPlatformMatches
  simp only [List.foldl_cons, List.foldl_nil, h1, h2, hs1, hs2, Option.isSome_some,
    if_true, List.filterMap_cons, List.filterMap_nil, relevanceScore_redShoe]
  norm_num

/-- Witness for C1: the amazon adapter raises, the ebay adapter returns the
Red Shoe record scoring 0.75, and find_matches returns exactly that match. -/
theorem c1_partial_failure_tolerance_witness :
    (find_matches envPartialFailure {} "https://example.com/item" ["amazon", "ebay"]
      none).1 =
      .ok [{ product := redShoe, relevance_score := 0.75, platform := "ebay" }] := by
  have h := (c1_partial_failure_tolerance envPartialFailure {} "https://example.com/item"
    "amazon" "ebay" "network down" failingAdapter okAdapter redShoe redShoe none
    ["amazon", "ebay"] rfl rfl rfl rfl rfl
    (by rw [relevanceScore_redShoe]; norm_num) (fun _ => rfl) (by simp)).1
  rw [h, collectMatches_partialFailure]
  simp [sortByRelevance]

theorem pairwise_filter_of_prop {α : Type} {R : α → α → Prop} {p : α → Bool}
    (l : List α) (h : ∀ a b, p a = true → p b = true → R a b) :
    List.Pairwise R (l.filter p) := by
  induction l with
  | nil => exact List.Pairwise.nil
  | cons x xs ih =>
    by_cases hx : p x = true
    · rw [List.filter_cons_of_pos hx]
      exact List.Pairwise.cons (fun b hb => h x b hx (List.of_mem_filter hb)) ih
    · rw [List.filter_cons_of_neg (by simpa using hx)]
      exact ih

theorem relLe_trans : ∀ a b c : MatchCandidate,
    (decide (b.relevance_score ≤ a.relevance_score)) = true →
    (decide (c.relevance_score ≤ b.relevance_score)) = true →
    (decide (c.relevance_score ≤ a.relevance_score)) = true := by
  intro a b c h1 h2
  simp only [decide_eq_true_eq] at h1 h2 ⊢
  exact le_trans h2 h1

theorem relLe_total : ∀ a b : MatchCandidate,
    ((decide (b.relevance_score ≤ a.relevance_score)) ||
     (decide (a.relevance_score ≤ b.relevance_score))) = true := by
  intro a b
  simp only [Bool.or_eq_true, decide_eq_true_eq]
  exact le_total _ _

theorem sortByRelevance_sorted (l : List MatchCandidate) :
    List.Pairwise (fun a b => b.relevance_score ≤ a.relevance_score)
      (sortByRelevance l) := by
  unfold sortByRelevance
  have h := @List.sorted_mergeSort MatchCandidate
    (fun a b => decide (b.relevance_score ≤ a.relevance_score)) relLe_trans relLe_total l
  exact h.imp (fun hab => by simpa using hab)

theorem sortByRelevance_filter_stable (l : List MatchCandidate) (q : ℚ) :
    (sortByRelevance l).filter (fun c => decide (c.relevance_score = q)) =
      l.filter (fun c => decide (c.relevance_score = q)) := by
  have hpair : List.Pairwise
      (fun a b : MatchCandidate =>
        (fun a b : MatchCandidate => decide (b.relevance_score ≤ a.relevance_score)) a b
          = true)
      (l.filter (fun c => decide (c.relevance_score = q))) := by
    refine pairwise_filter_of_prop l (fun a b ha hb => ?_)
    simp only [decide_eq_true_eq] at ha hb ⊢
    rw [ha, hb]
  have hsub : (l.filter (fun c => decide (c.relevance_score = q))).Sublist
      (sortByRelevance l) :=
    @List.mergeSort_stable MatchCandidate
      (fun a b => decide (b.relevance_score ≤ a.relevance_score)) l relLe_trans
      relLe_total _ hpair (List.filter_sublist l)
  have hsub2 := hsub.filter (fun c => decide (c.relevance_score = q))
  have heq : (l.filter (fun c => decide (c.relevance_score = q))).filter
      (fun c => decide (c.relevance_score = q)) =
      l.filter (fun c => decide (c.relevance_score = q)) := by
    refine List.filter_eq_self.mpr (fun a ha => ?_)
    exact (List.mem_filter.mp ha).2
  rw [heq] at hsub2
  have hlen : ((sortByRelevance l).filter
        (fun c => decide (c.relevance_score = q))).length =
      (l.filter (fun c => decide (c.relevance_score = q))).length :=
    ((List.mergeSort_perm l _).filter _).length_eq
  exact (hsub2.eq_of_length hlen.symm).symm

/-- C3: a successfully returned candidate sequence of find_matches is sorted
descending by relevance score, and candidates of equal score keep their
insertion order, which is the iteration order of the target platforms in the
collection loop. -/
theorem c3_matches_sorted_and_stable (env : MatchEnv) (st : ServiceState)
    (source_url : String) (target_platforms : List String) (criteria : Criteria)
    (src : ProductRecord) (ms : List MatchCandidate)
    (hex : env.extract source_url = some src)
    (hok : (find_matches env st source_url target_platforms criteria).1 = .ok ms) :
    List.Pairwise (fun a b => b.relevance_score ≤ a.relevance_score) ms ∧
    ∀ q : ℚ, ms.filter (fun c => decide (c.relevance_score = q)) =
      (collectMatches env src target_platforms criteria).filter
        (fun c => decide (c.relevance_score = q)) := by
  have hms : ms = sortByRelevance (collectMatches env src target_platforms criteria) := by
    unfold find_matches at hok
    rw [hex] at hok
    simp only [] at hok
    split at hok
    · cases hok
    · cases hok
      rfl
  subst hms
  exact ⟨sortByRelevance_sorted _, fun q => sortByRelevance_filter_stable _ q⟩

/-- Witness for C3: one healthy platform yields the single Red Shoe
candidate, sorted trivially and stable at the score 0.75. -/
theorem c3_matches_sorted_and_stable_witness :
    List.Pairwise (fun a b : MatchCandidate => b.relevance_score ≤ a.relevance_score)
      [{ product := redShoe, relevance_score := 0.75, platform := "amazon" }] ∧
    [({ product := redShoe, relevance_score := 0.75, platform := "amazon" }
        : MatchCandidate)].filter (fun c => decide (c.relevance_score = 0.75)) =
      (collectMatches envRedShoe redShoe ["amazon"] none).filter
        (fun c => decide (c.relevance_score = 0.75)) := by
  have hok : (find_matches envRedShoe {} "https://example.com/item" ["amazon"] none).1 =
      .ok [{ product := redShoe, relevance_score := 0.75, platform := "amazon" }] := by
    rw [find_matches_fst_ok envRedShoe {} "https://example.com/item" ["amazon"] none
      redShoe rfl (fun _ => rfl), collectMatches_redShoe]
    simp [sortByRelevance]
  have h := c3_matches_sorted_and_stable envRedShoe {} "https://example.com/item"
    ["amazon"] none redShoe
    [{ product := redShoe, relevance_score := 0.75, platform := "amazon" }] rfl hok
  exact ⟨h.1, h.2 0.75⟩

/-- C5 counterexample: the one-character string of a single space is a
non-empty string, yet its text similarity with itself is 0, not 1 — its
word set is empty, so the empty-guard fires before the Jaccard ratio. -/
theorem c5_counterexample_whitespace_string :
    (" " : String) ≠ "" ∧ textSimilarity " " " " ≠ 1 := by
  constructor
  · decide
  · have h : textSimilarity " " " " = 0 := by
      unfold textSimilarity
      simp only []
      rw [if_pos (Or.inl (by decide))]
    rw [h]
    norm_num

/-- C5 (amended): for every string whose word set is non-empty — that is,
containing at least one non-whitespace character — the text similarity of
the string with itself equals 1. -/
theorem c5_text_similarity_self (s : String) (h : wordSet s ≠ ∅) :
    textSimilarity s s = 1 :=
  textSimilarity_self_of_ne s h

/-- Witness for C5 at the concrete string Red Shoe. -/
theorem c5_text_similarity_self_witness :
    wordSet "Red Shoe" ≠ ∅ ∧ textSimilarity "Red Shoe" "Red Shoe" = 1 :=
  ⟨by decide, c5_text_similarity_self "Red Shoe" (by decide)⟩

/-- C8: get_status raises the not-found error when the task id is unknown,
raises the authorization error when the task exists but its owner differs
from the requesting user, and otherwise returns the snapshot of the task —
status, progress, message, result-or-none, error-or-none and timestamp. -/
theorem c8_get_status_cases (tasks : List (String × AvatarTask))
    (task_id user_id : String) :
    (lookupA tasks task_id = none →
      get_status tasks task_id user_id = .error "Task not found") ∧
    (∀ t, lookupA tasks task_id = some t → t.user_id ≠ user_id →
      get_status tasks task_id user_id = .error "Not authorized to access this task") ∧
    (∀ t, lookupA tasks task_id = some t → t.user_id = user_id →
      get_status tasks task_id user_id =
        .ok { task_id := task_id, status := t.status, progress := t.progress,
              message := t.message, created_at := t.created_at,
              result := t.result, error := t.error }) := by
  refine ⟨fun h => ?_, fun t h hne => ?_, fun t h he => ?_⟩
  · unfold get_status
    rw [h]
  · unfold get_status
    rw [h]
    simp only []
    rw [if_pos hne]
  · unfold get_status
    rw [h]
    simp only []
    rw [if_neg (by simp [he])]

/-- Witness for C8 on a map holding the single task t1 owned by alice:
unknown id, non-owner read, and owner read. -/
theorem c8_get_status_cases_witness :
    get_status tasksFixture "t2" "alice" = .error "Task not found" ∧
    get_status tasksFixture "t1" "bob" = .error "Not authorized to access this task" ∧
    get_status tasksFixture "t1" "alice" =
      .ok { task_id := "t1", status := .processing, progress := 0, message := "",
            created_at := 0, result := none, error := none } := by
  refine ⟨(c8_get_status_cases tasksFixture "t2" "alice").1 rfl,
    (c8_get_status_cases tasksFixture "t1" "bob").2.1 taskAlice rfl (by decide), ?_⟩
  have h := (c8_get_status_cases tasksFixture "t1" "alice").2.2 taskAlice rfl rfl
  simpa [taskAlice] using h

theorem taskStates_spec (env : GenEnv) (req : GenerationRequest) (now : Nat) :
    List.Chain' (fun a b => a.progress ≤ b.progress) (taskStates env req now) ∧
    ∃ final, (final = TaskStatus.completed ∨ final = TaskStatus.failed) ∧
      (taskStates env req now).map (fun t => t.status) =
        List.replicate ((taskStates env req now).length - 1) TaskStatus.processing
          ++ [final] := by
  unfold taskStates generateAvatarSteps
  rcases h1 : createBaseAvatarPrompt req.body_measurements req.preferences with e1 | prompt <;>
    simp only [h1]
  · refine ⟨?_, TaskStatus.failed, Or.inr rfl, ?_⟩ <;>
      simp [List.scanl, applyUpdate, startGeneration, List.replicate]
  · rcases h2 : env.genImage prompt with e2 | img <;> simp only [h2]
    · refine ⟨?_, TaskStatus.failed, Or.inr rfl, ?_⟩ <;>
        simp [List.scanl, applyUpdate, startGeneration, List.replicate]
    · rcases hf : req.face_image_url with _ | fu <;> simp only [hf]
      · rcases hb : req.body_image_url with _ | bu <;> simp only [hb]
        · rcases h3 : env.upload img req.id with e3 | url <;> simp only [h3]
          · refine ⟨?_, TaskStatus.failed, Or.inr rfl, ?_⟩ <;>
              simp [List.scanl, applyUpdate, startGeneration, List.replicate]
          · refine ⟨?_, TaskStatus.completed, Or.inl rfl, ?_⟩ <;>
              simp [List.scanl, applyUpdate, startGeneration, List.replicate]
        · rcases h3 : env.upload (applyBodyFeatures env img bu req.body_measurements)
              req.id with e3 | url <;> simp only [h3]
          · refine ⟨?_, TaskStatus.failed, Or.inr rfl, ?_⟩ <;>
              simp [List.scanl, applyUpdate, startGeneration, List.replicate]
          · refine ⟨?_, TaskStatus.completed, Or.inl rfl, ?_⟩ <;>
              simp [List.scanl, applyUpdate, startGeneration, List.replicate]
      · rcases hb : req.body_image_url with _ | bu <;> simp only [hb]
        · rcases h3 : env.upload (applyFaceFeatures env img fu) req.id with e3 | url <;>
            simp only [h3]
          · refine ⟨?_, TaskStatus.failed, Or.inr rfl, ?_⟩ <;>
              simp [List.scanl, applyUpdate, startGeneration, List.replicate]
          · refine ⟨?_, TaskStatus.completed, Or.inl rfl, ?_⟩ <;>
              simp [List.scanl, applyUpdate, startGeneration, List.replicate]
        · rcases h3 : env.upload
              (applyBodyFeatures env (applyFaceFeatures env img fu) bu
                req.body_measurements) req.id with e3 | url <;> simp only [h3]
          · refine ⟨?_, TaskStatus.failed, Or.inr rfl, ?_⟩ <;>
              simp [List.scanl, applyUpdate, startGeneration, List.replicate]
          · refine ⟨?_, TaskStatus.completed, Or.inl rfl, ?_⟩ <;>
              simp [List.scanl, applyUpdate, startGeneration, List.replicate]

/-- C9: along every execution of the background avatar workflow the task
starts in status processing with progress 0, its progress is monotonically
non-decreasing from state to state, and the status makes exactly one
transition: every state but the last has status processing and the last has
status completed or failed, so the terminal status is reached once and never
left. -/
theorem c9_task_lifecycle (env : GenEnv) (req : GenerationRequest) (now : Nat) :
    (taskStates env req now).head? = some (startGeneration req now) ∧
    (startGeneration req now).status = TaskStatus.processing ∧
    (startGeneration req now).progress = 0 ∧
    List.Chain' (fun a b => a.progress ≤ b.progress) (taskStates env req now) ∧
    ∃ final, (final = TaskStatus.completed ∨ final = TaskStatus.failed) ∧
      (taskStates env req now).map (fun t => t.status) =
        List.replicate ((taskStates env req now).length - 1) TaskStatus.processing
          ++ [final] := by
  refine ⟨?_, rfl, rfl, (taskStates_spec env req now).1, (taskStates_spec env req now).2⟩
  unfold taskStates
  cases generateAvatarSteps env req <;> rfl

theorem foldl_min_mem (p : ℚ) (ps : List ℚ) : ps.foldl min p ∈ p :: ps := by
  induction ps generalizing p with
  | nil => simp
  | cons x xs ih =>
    simp only [List.foldl_cons]
    rcases List.mem_cons.mp (ih (min p x)) with h | h
    · rw [h]
      rcases min_choice p x with hm | hm <;> rw [hm] <;> simp
    · simp [List.mem_cons_of_mem, h]

theorem foldl_min_le_seed (p : ℚ) (ps : List ℚ) : ps.foldl min p ≤ p := by
  induction ps generalizing p with
  | nil => exact le_refl p
  | cons x xs ih =>
    simp only [List.foldl_cons]
    exact le_trans (ih (min p x)) (min_le_left p x)

theorem foldl_min_le (p : ℚ) (ps : List ℚ) : ∀ q ∈ p :: ps, ps.foldl min p ≤ q := by
  induction ps generalizing p with
  | nil =>
    intro q hq
    simp only [List.mem_singleton] at hq
    simp [hq]
  | cons x xs ih =>
    intro q hq
    simp only [List.foldl_cons]
    rcases List.mem_cons.mp hq with rfl | hq2
    · exact le_trans (foldl_min_le_seed _ _) (min_le_left q x)
    · rcases List.mem_cons.mp hq2 with hqe | hq3
      · rw [hqe]
        exact le_trans (foldl_min_le_seed _ _) (min_le_right p x)
      · exact ih (min p x) q (List.mem_cons_of_mem _ hq3)

theorem foldl_max_mem (p : ℚ) (ps : List ℚ) : ps.foldl max p ∈ p :: ps := by
  induction ps generalizing p with
  | nil => simp
  | cons x xs ih =>
    simp only [List.foldl_cons]
    rcases List.mem_cons.mp (ih (max p x)) with h | h
    · rw [h]
      rcases max_choice p x with hm | hm <;> rw [hm] <;> simp
    · simp [List.mem_cons_of_mem, h]

theorem foldl_max_ge_seed (p : ℚ) (ps : List ℚ) : p ≤ ps.foldl max p := by
  induction ps generalizing p with
  | nil => exact le_refl p
  | cons x xs ih =>
    simp only [List.foldl_cons]
    exact le_trans (le_max_left p x) (ih (max p x))

theorem foldl_max_ge (p : ℚ) (ps : List ℚ) : ∀ q ∈ p :: ps, q ≤ ps.foldl max p := by
  induction ps generalizing p with
  | nil =>
    intro q hq
    simp only [List.mem_singleton] at hq
    simp [hq]
  | cons x xs ih =>
    intro q hq
    simp only [List.foldl_cons]
    rcases List.mem_cons.mp hq with rfl | hq2
    · exact le_trans (le_max_left q x) (foldl_max_ge_seed _ _)
    · rcases List.mem_cons.mp hq2 with hqe | hq3
      · rw [hqe]
        exact le_trans (le_max_right p x) (foldl_max_ge_seed _ _)
      · exact ih (max p x) q (List.mem_cons_of_mem _ hq3)

theorem compare_prices_ok (env : MatchEnv) (product_id : String)
    (platforms : Option (List String)) (res : PriceComparisonResult)
    (h : compare_prices env product_id platforms = .ok res) :
    res.statistics = priceStats res.price_comparison := by
  unfold compare_prices at h
  rcases hp : env.getProduct product_id with _ | product
  · rw [hp] at h
    cases h
  · rw [hp] at h
    simp only [] at h
    cases h
    rfl

/-- C7 (amended): the statistics of compare_prices are computed over the
platforms reporting a truthy price: min_price is their minimum, max_price
their maximum, avg_price their arithmetic mean rounded to two decimal
places (ties to even), and best_deals lists the platforms whose price equals
the minimum; when no truthy price exists, min, max and average are 0 and
best_deals is empty. -/
theorem c7_compare_prices_statistics (env : MatchEnv) (product_id : String)
    (platforms : Option (List String)) (res : PriceComparisonResult)
    (h : compare_prices env product_id platforms = .ok res) :
    (truthyPrices res.price_comparison = [] →
      res.statistics.min_price = 0 ∧ res.statistics.max_price = 0 ∧
      res.statistics.avg_price = 0 ∧ res.statistics.best_deals = []) ∧
    (truthyPrices res.price_comparison ≠ [] →
      (res.statistics.min_price ∈ truthyPrices res.price_comparison ∧
        ∀ q ∈ truthyPrices res.price_comparison, res.statistics.min_price ≤ q) ∧
      (res.statistics.max_price ∈ truthyPrices res.price_comparison ∧
        ∀ q ∈ truthyPrices res.price_comparison, q ≤ res.statistics.max_price) ∧
      res.statistics.avg_price =
        roundTo2 ((truthyPrices res.price_comparison).sum /
          ((truthyPrices res.price_comparison).length : ℚ)) ∧
      res.statistics.best_deals =
        (res.price_comparison.filter (fun e =>
          match e.2.price with
          | some q => decide (q = res.statistics.min_price)
          | none => false)).map Prod.fst) := by
  have hstat := compare_prices_ok env product_id platforms res h
  rcases htp : truthyPrices res.price_comparison with _ | ⟨p, ps⟩
  · refine ⟨fun _ => ?_, fun hne => absurd rfl hne⟩
    rw [hstat]
    unfold priceStats
    rw [htp]
    norm_num [roundTo2, roundHalfEven]
  · refine ⟨fun hemp => (List.cons_ne_nil p ps hemp).elim, fun _ => ?_⟩
    rw [hstat]
    unfold priceStats
    rw [htp]
    simp only []
    refine ⟨⟨foldl_min_mem p ps, foldl_min_le p ps⟩,
      ⟨foldl_max_mem p ps, foldl_max_ge p ps⟩, ?_, ?_⟩ <;> first | rfl | trivial

/-- C7 counterexample: over the prices 1, 1 and 2 the reported average is
1.33 — the mean 4/3 rounded to two decimal places — and not the exact
arithmetic mean, so the statistics are not literally the mean. -/
theorem c7_counterexample_avg_not_exact_mean :
    (compare_prices envPricesThird "p1" (some ["A", "B", "C"])).map
      (fun res => res.statistics.avg_price) = .ok (133/100) ∧
    (133/100 : ℚ) ≠ (1 + 1 + 2) / 3 := by
  constructor
  · have hok : compare_prices envPricesThird "p1" (some ["A", "B", "C"]) =
        .ok { product := prodX, price_comparison := comparisonThird,
              statistics := priceStats comparisonThird } := rfl
    rw [hok]
    simp only [Except.map]
    unfold priceStats
    have htp : truthyPrices comparisonThird = [1, 1, 2] := by decide
    rw [htp]
    simp only [List.sum_cons, List.sum_nil, List.length_cons, List.length_nil]
    norm_num [roundTo2, roundHalfEven]
  · norm_num

/-- Witness for C7 at the spec example: prices A 20, B 15, C null give
minimum 15, maximum 20, average 17.5 and best deals B alone. -/
theorem c7_compare_prices_statistics_witness :
    (priceStats comparisonABC).min_price = 15 ∧
    (priceStats comparisonABC).max_price = 20 ∧
    (priceStats comparisonABC).avg_price = 17.5 ∧
    (priceStats comparisonABC).best_deals = ["B"] := by
  have h := (c7_compare_prices_statistics envPricesABC "p1" (some ["A", "B", "C"])
      { product := prodX, price_comparison := comparisonABC,
        statistics := priceStats comparisonABC } rfl).2 (by decide)
  simp only [] at h
  obtain ⟨⟨hminmem, hminle⟩, ⟨hmaxmem, hmaxge⟩, havg, hdeals⟩ := h
  have htp : truthyPrices comparisonABC = [20, 15] := by decide
  rw [htp] at hminmem hmaxmem
  have hmin : (priceStats comparisonABC).min_price = 15 := by
    have h15 := hminle 15 (by rw [htp]; simp)
    rcases List.mem_cons.mp hminmem with he | he
    · rw [he] at h15
      norm_num at h15
    · simpa using he
  have hmax : (priceStats comparisonABC).max_price = 20 := by
    have h20 := hmaxge 20 (by rw [htp]; simp)
    rcases List.mem_cons.mp hmaxmem with he | he
    · exact he
    · have he15 : (priceStats comparisonABC).max_price = 15 := by simpa using he
      rw [he15] at h20
      norm_num at h20
  refine ⟨hmin, hmax, ?_, ?_⟩
  · rw [havg, htp]
    simp only [List.sum_cons, List.sum_nil, List.length_cons, List.length_nil]
    norm_num [roundTo2, roundHalfEven]
  · simp only [hmin] at hdeals
    rw [hdeals]
    decide

theorem mem_insertA {α : Type} (k : String) (v : α) (e : String × α)
    (l : List (String × α)) (he : e ∈ insertA l k v) : e ∈ l ∨ e = (k, v) := by
  induction l with
  | nil =>
    simp only [insertA, List.mem_singleton] at he
    exact Or.inr he
  | cons x xs ih =>
    rcases x with ⟨k2, v2⟩
    simp only [insertA] at he
    by_cases hk : k2 = k
    · rw [if_pos hk] at he
      rcases List.mem_cons.mp he with he1 | he2
      · refine Or.inr ?_
        rw [he1, hk]
      · exact Or.inl (List.mem_cons_of_mem _ he2)
    · rw [if_neg hk] at he
      rcases List.mem_cons.mp he with he1 | he2
      · refine Or.inl ?_
        rw [he1]
        exact List.mem_cons_self _ _
      · rcases ih he2 with h1 | h2
        · exact Or.inl (List.mem_cons_of_mem _ h1)
        · exact Or.inr h2

theorem buildPriceComparison_mem (env : MatchEnv) (product : ProductRecord) :
    ∀ (tps : List String) (acc : List (String × PriceInfo)),
      (∀ e ∈ acc, getPlatformPrice env product e.1 = some e.2) →
      ∀ e ∈ tps.foldl (fun acc platform =>
          if (lookupA env.adapters platform).isSome then
            match getPlatformPrice env product platform with
            | some info => insertA acc platform info
            | none => acc
          else acc) acc,
        getPlatformPrice env product e.1 = some e.2 := by
  intro tps
  induction tps with
  | nil =>
    intro acc hacc e he
    exact hacc e he
  | cons p rest ih =>
    intro acc hacc e he
    rw [List.foldl_cons] at he
    refine ih _ ?_ e he
    intro e2 he2
    by_cases hl : (lookupA env.adapters p).isSome
    · rw [if_pos hl] at he2
      rcases hg : getPlatformPrice env product p with _ | info
      · rw [hg] at he2
        exact hacc e2 he2
      · rw [hg] at he2
        rcases mem_insertA p info e2 acc he2 with h1 | h2
        · exact hacc e2 h1
        · rw [h2]
          exact hg
    · rw [if_neg hl] at he2
      exact hacc e2 he2

theorem buildPriceComparison_mem_all (env : MatchEnv) (product : ProductRecord)
    (tps : List String) (e : String × PriceInfo)
    (he : e ∈ buildPriceComparison env product tps) :
    getPlatformPrice env product e.1 = some e.2 := by
  unfold buildPriceComparison at he
  exact buildPriceComparison_mem env product tps []
    (by intro e2 h2; cases h2) e he

theorem truthyPrices_mem_ne_zero (l : List (String × PriceInfo)) :
    ∀ q ∈ truthyPrices l, q ≠ 0 := by
  intro q hq
  unfold truthyPrices at hq
  rcases List.mem_filterMap.mp hq with ⟨e, he, hfe⟩
  rcases hep : e.2.price with _ | qq
  · rw [hep] at hfe
    cases hfe
  · rw [hep] at hfe
    simp only [] at hfe
    by_cases hz : qq ≠ 0
    · rw [if_pos hz] at hfe
      cases hfe
      exact hz
    · rw [if_neg hz] at hfe
      cases hfe

theorem truthyPrices_cons (x : String × PriceInfo) (xs : List (String × PriceInfo)) :
    truthyPrices (x :: xs) =
      (match x.2.price with
       | some q => if q ≠ 0 then [q] else []
       | none => []) ++ truthyPrices xs := by
  unfold truthyPrices
  rw [List.filterMap_cons]
  rcases hx : x.2.price with _ | q
  · simp [hx]
  · by_cases hq : q ≠ 0
    · simp [hx, hq]
    · simp [hx, hq]

theorem truthyPrices_drop_key_of_zero (p : String) (l : List (String × PriceInfo))
    (hp : ∀ info, (p, info) ∈ l → info.price = some 0) :
    truthyPrices l = truthyPrices (l.filter (fun e => decide (e.1 ≠ p))) := by
  induction l with
  | nil => rfl
  | cons x xs ih =>
    have hxs : ∀ info, (p, info) ∈ xs → info.price = some 0 :=
      fun info hi => hp info (List.mem_cons_of_mem _ hi)
    by_cases hx : x.1 = p
    · have hx2 : x = (p, x.2) := by
        rcases x with ⟨k, i⟩
        simp only [] at hx
        rw [hx]
      have hprice : x.2.price = some 0 := by
        refine hp x.2 ?_
        rw [← hx2]
        exact List.mem_cons_self _ _
      rw [truthyPrices_cons]
      simp only [hprice]
      rw [if_neg (not_ne_iff.mpr rfl), List.nil_append]
      rw [List.filter_cons_of_neg (by simp [hx])]
      exact ih hxs
    · rw [truthyPrices_cons]
      rw [List.filter_cons_of_pos (by simp [hx]), truthyPrices_cons]
      rw [ih hxs]

/-- C10: in compare_prices a platform whose price lookup succeeds with the
price 0 is treated exactly like a platform with no price: the truthy price
values — the inputs of min, max and average — are unchanged when every entry
of that platform is removed from the comparison, and the platform never
appears in best_deals. -/
theorem c10_zero_price_like_no_price (env : MatchEnv) (product_id p : String)
    (platforms : Option (List String)) (res : PriceComparisonResult)
    (product : ProductRecord) (info0 : PriceInfo)
    (hprod : env.getProduct product_id = some product)
    (hg : getPlatformPrice env product p = some info0)
    (hz : info0.price = some 0)
    (h : compare_prices env product_id platforms = .ok res) :
    truthyPrices res.price_comparison =
      truthyPrices (res.price_comparison.filter (fun e => decide (e.1 ≠ p))) ∧
    p ∉ res.statistics.best_deals := by
  have hstat := compare_prices_ok env product_id platforms res h
  have hex : ∃ tps, res.price_comparison = buildPriceComparison env product tps := by
    unfold compare_prices at h
    rw [hprod] at h
    simp only [] at h
    cases h
    exact ⟨_, rfl⟩
  obtain ⟨tps, hpc⟩ := hex
  have hp : ∀ info, (p, info) ∈ res.price_comparison → info.price = some 0 := by
    intro info hi
    rw [hpc] at hi
    have hgp := buildPriceComparison_mem_all env product _ _ hi
    simp only [] at hgp
    rw [hg] at hgp
    cases hgp
    exact hz
  refine ⟨truthyPrices_drop_key_of_zero p _ hp, ?_⟩
  rw [hstat]
  unfold priceStats
  rcases htp : truthyPrices res.price_comparison with _ | ⟨p0, ps⟩
  · simp
  · simp only []
    intro hmem
    rcases List.mem_map.mp hmem with ⟨e, hef, hfst⟩
    have hem := List.mem_filter.mp hef
    have he2 : e = (p, e.2) := by
      rcases e with ⟨k, i⟩
      simp only [] at hfst
      rw [hfst]
    have hz2 : e.2.price = some 0 := by
      refine hp e.2 ?_
      rw [← he2]
      exact hem.1
    have hcond := hem.2
    simp only [] at hcond
    rw [hz2] at hcond
    simp only [] at hcond
    have hminz : (0 : ℚ) = ps.foldl min p0 := of_decide_eq_true hcond
    have hminmem : ps.foldl min p0 ∈ truthyPrices res.price_comparison := by
      rw [htp]
      exact foldl_min_mem p0 ps
    exact truthyPrices_mem_ne_zero res.price_comparison _ hminmem hminz.symm

/-- Witness for C10: platform Z reporting the price 0 next to platform A at
price 20: the truthy prices are unchanged without Z and Z is not a best
deal. -/
theorem c10_zero_price_like_no_price_witness :
    truthyPrices comparisonAZ =
      truthyPrices (comparisonAZ.filter (fun e => decide (e.1 ≠ "Z"))) ∧
    "Z" ∉ (priceStats comparisonAZ).best_deals :=
  c10_zero_price_like_no_price envPriceZero "p1" "Z" (some ["A", "Z"])
    { product := prodX, price_comparison := comparisonAZ,
      statistics := priceStats comparisonAZ } prodX { price := some 0 }
    rfl rfl rfl rfl

end Wyoiwyget
